import Mathlib

/-!
Shallow embedding of the bookmark optimistic-update / cache-reconciliation
flow of the front_end repository.

Embedded source:
- `src/src/hooks/usePaperActions.ts` : `handleBookmark` (lines 48-78)
- `src/src/hooks/api/usePapers.ts`   : `useAddBookmarkMutation` (lines 417-491),
  `useDeleteBookmarkMutation` (lines 502-530)

JavaScript values relevant to the flow are modelled explicitly:
- a paper identifier argument is `number | string`, modelled by `JsId`;
- possibly-absent string fields (`b.paper_id`, `b.id`, `error.message`) are
  `Option String`, with JS truthiness (`undefined`/`null`/`""` falsy);
- the query cache entry for the `['bookmarks']` key is
  `Option (List BookmarkItem)` (`none` = no cache entry yet).
-/

namespace FrontEnd

/-- A JavaScript `number | string` paper identifier, as received by
`handleBookmark(paperId: number | string, ...)`. -/
inductive JsId where
  | num : Int → JsId
  | str : String → JsId
deriving DecidableEq, Repr

/-- JS truthiness of a `number | string` value: `0` and `""` are falsy. -/
def JsId.truthy : JsId → Bool
  | .num n => n != 0
  | .str s => s != ""

/-- JS `String(value)` applied to a `number | string` value. -/
def JsId.toStr : JsId → String
  | .num n => toString n
  | .str s => s

/-- JS truthiness of a possibly-absent string (`undefined`/`null`/`""` falsy). -/
def optStrTruthy : Option String → Bool
  | none => false
  | some s => s != ""

/-- The slice of the `Paper` object read by the flow: only the nested
`paper.id` field (a `number | string` in the source) is consulted. -/
structure Paper where
  id : JsId
deriving DecidableEq, Repr

/-- `BookmarkItem` as used by the flow: bookmark id, direct paper id,
optional note, optional embedded paper object. Fields are `Option` because
either representation of the paper id may be absent depending on which
endpoint produced the cached row. -/
structure BookmarkItem where
  id : Option String
  paper_id : Option String
  notes : Option String
  paper : Option Paper
deriving DecidableEq, Repr

/-- Query-cache keys touched by the flow (`['bookmarks']`,
`['papers','search',...]`, `['papers','detail',paperId]`). -/
inductive QKey where
  | bookmarks
  | papersSearch
  | papersDetail (paperId : JsId)
deriving DecidableEq, Repr

/-- User-visible toast notices produced by the flow, one constructor per
distinct toast call site in the source. -/
inductive Notice where
  | loginRequired       -- '로그인이 필요합니다'
  | invalidPaperId      -- '유효하지 않은 논문 ID입니다.'
  | bookmarkIdNotFound  -- '북마크 ID를 찾을 수 없습니다.'
  | addSuccess          -- '북마크가 추가되었습니다'
  | deleteSuccess       -- '북마크가 삭제되었습니다'
  | alreadyBookmarked   -- '이미 북마크된 논문입니다'
  | addFailure          -- '북마크 추가 실패'
  | deleteFailure       -- '북마크 삭제 실패'
deriving DecidableEq, Repr

/-- Network requests the flow can issue. -/
inductive NetCall where
  | addBookmark (paperId : String) (notes : Option String)
  | deleteBookmark (bookmarkId : String)
deriving DecidableEq, Repr

/-- The mutation `handleBookmark` decides to dispatch, if any. -/
inductive MutateCall where
  | addCall (paperId : String) (notes : Option String)
  | deleteCall (bookmarkId : String)
deriving DecidableEq, Repr

/-- Outcome of the network phase of a dispatched mutation. -/
inductive ServerOutcome where
  | ok
  | err (msg : String)
deriving DecidableEq, Repr

/-- JS `String.prototype.trim`: whitespace stripped from both ends. -/
def jsTrim (s : String) : String :=
  String.mk (((s.data.dropWhile Char.isWhitespace).reverse.dropWhile
    Char.isWhitespace).reverse)

/-- `usePaperActions.ts` line 57:
`typeof paperId === 'string' ? paperId.trim() : String(paperId)`. -/
def normalizePaperId : JsId → String
  | .str s => jsTrim s
  | .num n => toString n

/-- The nested-representation fallback of `usePaperActions.ts` line 65:
`(b.paper?.id ? String(b.paper.id) : null)`. -/
def nestedPaperId (b : BookmarkItem) : Option String :=
  match b.paper with
  | some p => if p.id.truthy then some p.id.toStr else none
  | none => none

/-- `usePaperActions.ts` line 65:
`const bookmarkPaperId = b.paper_id || (b.paper?.id ? String(b.paper.id) : null)`.
JS `||` falls through when `b.paper_id` is absent or `""`. -/
def bookmarkPaperIdOf (b : BookmarkItem) : Option String :=
  match b.paper_id with
  | some s => if s != "" then some s else nestedPaperId b
  | none => nestedPaperId b

/-- The `bookmarks.find` predicate of `usePaperActions.ts` lines 64-67:
`bookmarkPaperId === paperIdString` (strict equality; `null` never matches). -/
def handleMatch (b : BookmarkItem) (paperIdString : String) : Bool :=
  bookmarkPaperIdOf b == some paperIdString

/-- `handleBookmark` of `usePaperActions.ts` lines 48-78, returning the
toasts it shows and the mutation it dispatches (if any). `bookmarks` is the
`useBookmarksQuery` data with its `= []` default. -/
def handleBookmark (isLoggedIn : Bool) (bookmarks : List BookmarkItem)
    (paperId : JsId) (notes : Option String) : List Notice × Option MutateCall :=
  if !isLoggedIn then
    ([Notice.loginRequired], none)
  else
    if normalizePaperId paperId == "" then
      ([Notice.invalidPaperId], none)
    else
      match bookmarks.find? (fun b => handleMatch b (normalizePaperId paperId)) with
      | some bookmark =>
          if optStrTruthy bookmark.id then
            ([], some (MutateCall.deleteCall (bookmark.id.getD "")))
          else
            ([Notice.bookmarkIdNotFound], none)
      | none => ([], some (MutateCall.addCall (normalizePaperId paperId) notes))

/-- The optimistic entry synthesized by `useAddBookmarkMutation.onMutate`
(`usePapers.ts` lines 441-445): `{ id: "temp-" + paperId, paper_id: paperId, notes }`. -/
def tempBookmark (paperId : String) (notes : Option String) : BookmarkItem :=
  { id := some ("temp-" ++ paperId), paper_id := some paperId,
    notes := notes, paper := none }

/-- The duplicate check of the optimistic insert (`usePapers.ts` line 449):
`old.some(b => b.paper_id === paperId)` — only the direct field is compared. -/
def addExists (l : List BookmarkItem) (paperId : String) : Bool :=
  l.any (fun b => b.paper_id == some paperId)

/-- `useAddBookmarkMutation.onMutate` (`usePapers.ts` lines 432-458):
returns (cache after the optimistic write, rollback snapshot). When no
cache entry exists (`previousBookmarks` undefined) the optimistic write is
skipped and the snapshot is `none`. -/
def addBookmark_onMutate (cache : Option (List BookmarkItem))
    (paperId : String) (notes : Option String) :
    Option (List BookmarkItem) × Option (List BookmarkItem) :=
  match cache with
  | none => (none, none)
  | some prev =>
      let newList :=
        if addExists prev paperId then prev
        else prev ++ [tempBookmark paperId notes]
      (some newList, some prev)

/-- `useAddBookmarkMutation.onSuccess` (`usePapers.ts` lines 459-467):
keys invalidated and notice shown. -/
def addBookmark_onSuccess : List QKey × Notice :=
  ([QKey.bookmarks, QKey.papersSearch], Notice.addSuccess)

/-- Whether `needle` occurs as a contiguous segment of `haystack`. -/
def listContainsSeg (needle : List Char) : List Char → Bool
  | [] => needle.isEmpty
  | c :: rest => needle.isPrefixOf (c :: rest) || listContainsSeg needle rest

/-- JS `haystack.includes(needle)` on strings. -/
def strIncludes (haystack needle : String) : Bool :=
  listContainsSeg needle.data haystack.data

/-- The duplicate-error classifier of `useAddBookmarkMutation.onError`
(`usePapers.ts` lines 475-478): substring match against known wordings,
after `error.message || ''`. -/
def isDuplicateBookmarkError (errMsg : Option String) : Bool :=
  let msg := match errMsg with
    | some m => if m != "" then m else ""
    | none => ""
  strIncludes msg "already exists" ||
    strIncludes msg "Bookmark already exists" ||
    strIncludes msg "duplicate"

/-- `useAddBookmarkMutation.onError` (`usePapers.ts` lines 468-489):
rolls back to the snapshot when one was captured (any array, `[]` included,
is truthy), then classifies the error. Returns (cache after the handler,
keys invalidated, notice shown). -/
def addBookmark_onError (cache snapshot : Option (List BookmarkItem))
    (errMsg : Option String) :
    Option (List BookmarkItem) × List QKey × Notice :=
  let cache1 := match snapshot with
    | some prev => some prev
    | none => cache
  if isDuplicateBookmarkError errMsg then
    (cache1, [QKey.bookmarks], Notice.alreadyBookmarked)
  else
    (cache1, [], Notice.addFailure)

/-- `useDeleteBookmarkMutation.onSuccess` (`usePapers.ts` lines 517-523):
keys invalidated and notice shown. The mutation has no `onMutate`. -/
def deleteBookmark_onSuccess : List QKey × Notice :=
  ([QKey.bookmarks, QKey.papersSearch], Notice.deleteSuccess)

/-- `useDeleteBookmarkMutation.onError` (`usePapers.ts` lines 524-529):
only a failure toast; the cache is not touched. -/
def deleteBookmark_onError : Notice :=
  Notice.deleteFailure

/-- The observable outcome of one bookmark-flow invocation:
the cache state right after the synchronous optimistic phase, the cache
state after the mutation settles, the keys marked stale, the toasts shown,
and the network requests issued. -/
structure FlowResult where
  optimisticCache : Option (List BookmarkItem)
  finalCache : Option (List BookmarkItem)
  staleKeys : List QKey
  notices : List Notice
  netCalls : List NetCall
deriving DecidableEq, Repr

/-- The composed bookmark flow: `handleBookmark` decides, then the
dispatched mutation's `onMutate` (add only — delete has none), the network
call, and `onSuccess`/`onError` run in order on the single-threaded event
loop. `cache` is the `['bookmarks']` query-cache entry. -/
def bookmarkFlow (isLoggedIn : Bool) (cache : Option (List BookmarkItem))
    (paperId : JsId) (notes : Option String) (server : ServerOutcome) :
    FlowResult :=
  let dec := handleBookmark isLoggedIn (cache.getD []) paperId notes
  match dec.2 with
  | none =>
      { optimisticCache := cache, finalCache := cache, staleKeys := [],
        notices := dec.1, netCalls := [] }
  | some (MutateCall.addCall pid nts) =>
      let opt := addBookmark_onMutate cache pid nts
      match server with
      | ServerOutcome.ok =>
          { optimisticCache := opt.1, finalCache := opt.1,
            staleKeys := addBookmark_onSuccess.1,
            notices := dec.1 ++ [addBookmark_onSuccess.2],
            netCalls := [NetCall.addBookmark pid nts] }
      | ServerOutcome.err msg =>
          let res := addBookmark_onError opt.1 opt.2 (some msg)
          { optimisticCache := opt.1, finalCache := res.1,
            staleKeys := res.2.1,
            notices := dec.1 ++ [res.2.2],
            netCalls := [NetCall.addBookmark pid nts] }
  | some (MutateCall.deleteCall bid) =>
      match server with
      | ServerOutcome.ok =>
          { optimisticCache := cache, finalCache := cache,
            staleKeys := deleteBookmark_onSuccess.1,
            notices := dec.1 ++ [deleteBookmark_onSuccess.2],
            netCalls := [NetCall.deleteBookmark bid] }
      | ServerOutcome.err _ =>
          { optimisticCache := cache, finalCache := cache, staleKeys := [],
            notices := dec.1 ++ [deleteBookmark_onError],
            netCalls := [NetCall.deleteBookmark bid] }

/-- Number of entries for paper `P` (by the direct `paper_id` field) in a
cached bookmark list. -/
def countForPaper (l : List BookmarkItem) (paperId : String) : Nat :=
  l.countP (fun b => b.paper_id == some paperId)

/-- A cached row carrying its paper id in the direct `paper_id` field. -/
def directRow (bid nts : Option String) (pid : String) : BookmarkItem :=
  { id := bid, paper_id := some pid, notes := nts, paper := none }

/-- A cached row carrying its paper id only in the nested `paper.id`
field. -/
def nestedRow (bid nts : Option String) (j : JsId) : BookmarkItem :=
  { id := bid, paper_id := none, notes := nts, paper := some { id := j } }

/-- The cached bookmark row of Scenario B: `{paper_id:"7", id:"b1"}`. -/
def bB7 : BookmarkItem :=
  { id := some "b1", paper_id := some "7", notes := none, paper := none }

/-- A cached row for paper 9 whose paper id lives only in the nested
`paper.id` field. -/
def bNested9 : BookmarkItem :=
  { id := some "b9", paper_id := none, notes := none,
    paper := some { id := JsId.num 9 } }

/-- A cached row for paper "5" with no bookmark identifier. -/
def bNoId5 : BookmarkItem :=
  { id := none, paper_id := some "5", notes := none, paper := none }

/-- The duplicate check of the optimistic insert is false exactly on lists
with no entry (by direct `paper_id`) for the paper. -/
theorem addExists_eq_false_of_count (l : List BookmarkItem) (P : String)
    (h : countForPaper l P = 0) : addExists l P = false := by
  unfold countForPaper at h
  unfold addExists
  rw [List.any_eq_false]
  intro b hb
  simpa using List.countP_eq_zero.mp h b hb

/-- `handleBookmark` shows no toast on the branches that dispatch a
mutation. -/
theorem handleBookmark_dispatch_no_notices (isLoggedIn : Bool)
    (bookmarks : List BookmarkItem) (paperId : JsId) (notes : Option String)
    (c : MutateCall)
    (h : (handleBookmark isLoggedIn bookmarks paperId notes).2 = some c) :
    (handleBookmark isLoggedIn bookmarks paperId notes).1 = [] := by
  unfold handleBookmark at h ⊢
  split at h
  · simp at h
  · split at h
    · simp at h
    · split at h
      · split at h
        · simp_all
        · simp at h
      · simp_all

/-- C4: while no auth session exists, `handleBookmark` aborts before
dispatching either mutation: exactly one unauthenticated notice, no
network call, no cache write, no invalidation. -/
theorem bookmarkFlow_unauthenticated (cache : Option (List BookmarkItem))
    (paperId : JsId) (notes : Option String) (server : ServerOutcome) :
    bookmarkFlow false cache paperId notes server =
      { optimisticCache := cache, finalCache := cache, staleKeys := [],
        notices := [Notice.loginRequired], netCalls := [] } := by
  rfl

/-- C5: when a bookmark-list cache entry exists and holds no entry for
paper `P`, the optimistic phase of the add mutation synchronously appends
exactly one entry for `P`, carrying the placeholder id `"temp-" ++ P` and
`paper_id = P`, and captures the previous list as the rollback snapshot. -/
theorem add_optimistic_insert (l : List BookmarkItem) (P : String)
    (notes : Option String) (h : countForPaper l P = 0) :
    addBookmark_onMutate (some l) P notes
        = (some (l ++ [tempBookmark P notes]), some l) ∧
      countForPaper (l ++ [tempBookmark P notes]) P = 1 ∧
      (tempBookmark P notes).id = some ("temp-" ++ P) ∧
      (tempBookmark P notes).paper_id = some P := by
  have hex := addExists_eq_false_of_count l P h
  refine ⟨?_, ?_, rfl, rfl⟩
  · unfold addBookmark_onMutate
    simp [hex]
  · unfold countForPaper at h ⊢
    rw [List.countP_append, h]
    simp [tempBookmark]

/-- C5 witness: Scenario A, `cache = []`, `add("42")`. -/
theorem add_optimistic_insert_applied :
    addBookmark_onMutate (some []) "42" none
        = (some [tempBookmark "42" none], some []) ∧
      countForPaper [tempBookmark "42" none] "42" = 1 ∧
      (tempBookmark "42" none).id = some ("temp-" ++ "42") ∧
      (tempBookmark "42" none).paper_id = some "42" :=
  add_optimistic_insert [] "42" none (by decide)

/-- C6: two optimistic add inserts for the same paper in succession leave
exactly one entry for the paper: the second insert is a no-op because the
first temp entry already matches the duplicate check. -/
theorem add_optimistic_idempotent (l : List BookmarkItem) (P : String)
    (notes notes2 : Option String) (h : countForPaper l P = 0) :
    (addBookmark_onMutate ((addBookmark_onMutate (some l) P notes).1) P notes2).1
        = some (l ++ [tempBookmark P notes]) ∧
      countForPaper (l ++ [tempBookmark P notes]) P = 1 := by
  have hex := addExists_eq_false_of_count l P h
  have h1 : (addBookmark_onMutate (some l) P notes).1
      = some (l ++ [tempBookmark P notes]) := by
    unfold addBookmark_onMutate
    simp [hex]
  have hex2 : addExists (l ++ [tempBookmark P notes]) P = true := by
    unfold addExists
    rw [List.any_append]
    simp [tempBookmark]
  constructor
  · rw [h1]
    unfold addBookmark_onMutate
    simp [hex2]
  · unfold countForPaper at h ⊢
    rw [List.countP_append, h]
    simp [tempBookmark]

/-- C6 witness: `cache = []`, `add("42")` twice before either resolves. -/
theorem add_optimistic_idempotent_applied :
    (addBookmark_onMutate ((addBookmark_onMutate (some []) "42" none).1) "42" none).1
        = some [tempBookmark "42" none] ∧
      countForPaper [tempBookmark "42" none] "42" = 1 :=
  add_optimistic_idempotent [] "42" none none (by decide)

/-- C7: when the add network call fails with a non-duplicate error, the
error handler restores the bookmark cache to exactly the state captured
before the optimistic write (for an absent cache entry nothing was written
and nothing is restored), invalidates nothing, and shows the generic
failure notice. -/
theorem add_generic_failure_rollback (cache : Option (List BookmarkItem))
    (P : String) (notes : Option String) (msg : String)
    (h : isDuplicateBookmarkError (some msg) = false) :
    addBookmark_onError (addBookmark_onMutate cache P notes).1
        (addBookmark_onMutate cache P notes).2 (some msg)
      = (cache, ([], Notice.addFailure)) := by
  cases cache with
  | none => simp [addBookmark_onMutate, addBookmark_onError, h]
  | some prev => simp [addBookmark_onMutate, addBookmark_onError, h]

/-- C7 witness: `cache = []`, `add("42")`, server fails with a generic
network error. -/
theorem add_generic_failure_rollback_applied :
    addBookmark_onError (addBookmark_onMutate (some []) "42" none).1
        (addBookmark_onMutate (some []) "42" none).2 (some "Network Error")
      = (some [], ([], Notice.addFailure)) :=
  add_generic_failure_rollback (some []) "42" none "Network Error" (by decide)

/-- C10: while logged in, a string paper identifier that trims to the empty
string aborts the flow with one invalid-paper-ID notice: no cache write, no
invalidation, no network call. -/
theorem bookmarkFlow_blank_paperId (cache : Option (List BookmarkItem))
    (s : String) (notes : Option String) (server : ServerOutcome)
    (h : jsTrim s = "") :
    bookmarkFlow true cache (JsId.str s) notes server =
      { optimisticCache := cache, finalCache := cache, staleKeys := [],
        notices := [Notice.invalidPaperId], netCalls := [] } := by
  have h1 : normalizePaperId (JsId.str s) = "" := by
    simp [normalizePaperId, h]
  simp [bookmarkFlow, handleBookmark, h1]

/-- C10 witness: logged in, paper identifier `"   "` (whitespace only). -/
theorem bookmarkFlow_blank_paperId_applied :
    bookmarkFlow true (some []) (JsId.str "   ") none ServerOutcome.ok =
      { optimisticCache := some [], finalCache := some [], staleKeys := [],
        notices := [Notice.invalidPaperId], netCalls := [] } :=
  bookmarkFlow_blank_paperId (some []) "   " none ServerOutcome.ok (by decide)

/-- C1 counterexample: Scenario B (`cache = [{paper_id:"7", id:"b1"}]`,
logged in, `remove("7")`, server 500). The flow dispatches the delete
mutation, but the cache before the network call resolves still contains
the entry for paper 7 — `useDeleteBookmarkMutation` has no optimistic
phase, so no entry is removed synchronously. -/
theorem delete_no_optimistic_removal_cex :
    (bookmarkFlow true (some [bB7]) (JsId.str "7") none
        (ServerOutcome.err "Internal Server Error")).netCalls
        = [NetCall.deleteBookmark "b1"] ∧
      (bookmarkFlow true (some [bB7]) (JsId.str "7") none
        (ServerOutcome.err "Internal Server Error")).optimisticCache
        = some [bB7] ∧
      countForPaper [bB7] "7" = 1 := by
  decide

/-- C1 (amended): the remove path performs no optimistic cache update —
after `handleBookmark` dispatches the delete mutation the cached bookmark
list is unchanged until the network call resolves, and on server failure
it is still the pre-call list, with one failure notice and no
invalidation. -/
theorem delete_flow_no_optimistic_update (cache : Option (List BookmarkItem))
    (paperId : JsId) (notes : Option String) (msg bid : String)
    (ns : List Notice)
    (h : handleBookmark true (cache.getD []) paperId notes
      = (ns, some (MutateCall.deleteCall bid))) :
    bookmarkFlow true cache paperId notes (ServerOutcome.err msg) =
      { optimisticCache := cache, finalCache := cache, staleKeys := [],
        notices := ns ++ [Notice.deleteFailure],
        netCalls := [NetCall.deleteBookmark bid] } := by
  simp [bookmarkFlow, h, deleteBookmark_onError]

/-- C1 witness: Scenario B inputs. -/
theorem delete_flow_no_optimistic_update_applied :
    bookmarkFlow true (some [bB7]) (JsId.str "7") none
        (ServerOutcome.err "Internal Server Error") =
      { optimisticCache := some [bB7], finalCache := some [bB7],
        staleKeys := [], notices := [Notice.deleteFailure],
        netCalls := [NetCall.deleteBookmark "b1"] } :=
  delete_flow_no_optimistic_update (some [bB7]) (JsId.str "7") none
    "Internal Server Error" "b1" [] (by decide)

/-- C2 counterexample: a successful add for paper "42" invalidates only the
bookmark-list and search keys; the paper-detail key for "42" is not marked
stale. -/
theorem success_no_detail_invalidation_cex :
    (bookmarkFlow true (some []) (JsId.str "42") none
        ServerOutcome.ok).staleKeys
        = [QKey.bookmarks, QKey.papersSearch] ∧
      QKey.papersDetail (JsId.str "42")
        ∉ (bookmarkFlow true (some []) (JsId.str "42") none
            ServerOutcome.ok).staleKeys := by
  decide

/-- C2 (amended): after a dispatched add or delete mutation succeeds,
exactly the bookmark-list key and the search-result key are marked stale —
no paper-detail key is — and one success notice is shown. -/
theorem flow_success_invalidations (cache : Option (List BookmarkItem))
    (paperId : JsId) (notes : Option String) (c : MutateCall)
    (h : (handleBookmark true (cache.getD []) paperId notes).2 = some c) :
    (bookmarkFlow true cache paperId notes ServerOutcome.ok).staleKeys
        = [QKey.bookmarks, QKey.papersSearch] ∧
      (∀ p : JsId, QKey.papersDetail p
        ∉ (bookmarkFlow true cache paperId notes ServerOutcome.ok).staleKeys) ∧
      ((bookmarkFlow true cache paperId notes ServerOutcome.ok).notices
          = [Notice.addSuccess] ∨
        (bookmarkFlow true cache paperId notes ServerOutcome.ok).notices
          = [Notice.deleteSuccess]) := by
  have hn := handleBookmark_dispatch_no_notices true (cache.getD [])
    paperId notes c h
  have hfull : handleBookmark true (cache.getD []) paperId notes = ([], some c) := by
    rw [← hn, ← h]
  cases c with
  | addCall pid nts =>
      refine ⟨?_, ?_, Or.inl ?_⟩ <;>
        simp [bookmarkFlow, hfull, addBookmark_onSuccess]
  | deleteCall bid =>
      refine ⟨?_, ?_, Or.inr ?_⟩ <;>
        simp [bookmarkFlow, hfull, deleteBookmark_onSuccess]

/-- C2 witness: Scenario A inputs (`cache = []`, `add("42")`, server ok). -/
theorem flow_success_invalidations_applied :
    (bookmarkFlow true (some []) (JsId.str "42") none
        ServerOutcome.ok).staleKeys
        = [QKey.bookmarks, QKey.papersSearch] ∧
      (∀ p : JsId, QKey.papersDetail p
        ∉ (bookmarkFlow true (some []) (JsId.str "42") none
            ServerOutcome.ok).staleKeys) ∧
      ((bookmarkFlow true (some []) (JsId.str "42") none
            ServerOutcome.ok).notices = [Notice.addSuccess] ∨
        (bookmarkFlow true (some []) (JsId.str "42") none
            ServerOutcome.ok).notices = [Notice.deleteSuccess]) :=
  flow_success_invalidations (some []) (JsId.str "42") none
    (MutateCall.addCall "42" none) (by decide)

/-- C3 counterexample: `cache = []`, `add("9")`, server answers
"Bookmark already exists". The error handler rolls the cache back to the
snapshot (the optimistic temp entry is removed, final cache = pre-call
cache) and only then marks the bookmark key stale — contradicting "marked
stale rather than rolled back to the snapshot". -/
theorem duplicate_error_rollback_cex :
    (bookmarkFlow true (some []) (JsId.str "9") none
        (ServerOutcome.err "Bookmark already exists")).optimisticCache
        = some [tempBookmark "9" none] ∧
      (bookmarkFlow true (some []) (JsId.str "9") none
        (ServerOutcome.err "Bookmark already exists")).finalCache
        = some [] ∧
      (bookmarkFlow true (some []) (JsId.str "9") none
          (ServerOutcome.err "Bookmark already exists")).finalCache
        ≠ (bookmarkFlow true (some []) (JsId.str "9") none
          (ServerOutcome.err "Bookmark already exists")).optimisticCache ∧
      (bookmarkFlow true (some []) (JsId.str "9") none
        (ServerOutcome.err "Bookmark already exists")).staleKeys
        = [QKey.bookmarks] := by
  decide

/-- C3 (amended): on a duplicate-bookmark error the cache is first rolled
back to the snapshot captured before the optimistic write, and then the
bookmark-list key is marked stale; the distinct already-bookmarked notice
(not the generic failure notice) is produced. -/
theorem add_duplicate_failure_invalidates (cache : Option (List BookmarkItem))
    (P : String) (notes : Option String) (msg : String)
    (h : isDuplicateBookmarkError (some msg) = true) :
    addBookmark_onError (addBookmark_onMutate cache P notes).1
        (addBookmark_onMutate cache P notes).2 (some msg)
      = (cache, ([QKey.bookmarks], Notice.alreadyBookmarked)) := by
  cases cache <;> simp [addBookmark_onMutate, addBookmark_onError, h]

/-- C3 witness: Scenario C inputs (`add("9")`, duplicate-conflict reply). -/
theorem add_duplicate_failure_invalidates_applied :
    addBookmark_onError (addBookmark_onMutate (some []) "9" none).1
        (addBookmark_onMutate (some []) "9" none).2
        (some "Bookmark already exists")
      = (some [], ([QKey.bookmarks], Notice.alreadyBookmarked)) :=
  add_duplicate_failure_invalidates (some []) "9" none
    "Bookmark already exists" (by decide)

/-- C8 counterexample: a row holding paper 9 only in the nested field is
matched by `handleBookmark`'s toggle check but missed by the optimistic
insert's duplicate check, which therefore inserts a second entry for the
same paper. -/
theorem add_dup_check_misses_nested_cex :
    handleMatch bNested9 "9" = true ∧
      addExists [bNested9] "9" = false ∧
      (addBookmark_onMutate (some [bNested9]) "9" none).1
        = some [bNested9, tempBookmark "9" none] := by
  decide

/-- C8 (amended): the toggle check of `handleBookmark` compares paper
identifiers in string form and matches a row through either the direct
`paper_id` field or the nested `paper.id` field (the latter normalized by
`String(...)`), but the optimistic insert's duplicate check consults only
the direct `paper_id` field: a row carrying the id only in the nested
field is never matched by it. -/
theorem matching_representations (pid : String) (bid nts : Option String)
    (j : JsId) (hpid : pid ≠ "") (hj : JsId.truthy j = true) :
    handleMatch (directRow bid nts pid) pid = true ∧
      (handleMatch (nestedRow bid nts j) pid = true ↔ JsId.toStr j = pid) ∧
      addExists [nestedRow bid nts j] pid = false := by
  refine ⟨?_, ?_, ?_⟩
  · simp [handleMatch, bookmarkPaperIdOf, directRow, hpid]
  · simp [handleMatch, bookmarkPaperIdOf, nestedRow, nestedPaperId, hj]
  · simp [addExists, nestedRow]

/-- C8 witness: paper "9", rows `{id:"b9", paper_id:"9"}` and
`{id:"b9", paper:{id:9}}`. -/
theorem matching_representations_applied :
    handleMatch (directRow (some "b9") none "9") "9" = true ∧
      (handleMatch (nestedRow (some "b9") none (JsId.num 9)) "9" = true
        ↔ JsId.toStr (JsId.num 9) = "9") ∧
      addExists [nestedRow (some "b9") none (JsId.num 9)] "9" = false :=
  matching_representations "9" (some "b9") none (JsId.num 9)
    (by decide) (by decide)

/-- C9: when the toggle check matches a cached row whose bookmark id is
absent (or empty), the flow shows the distinct bookmark-id-not-found
notice and stops: no network call, no cache write, no invalidation. -/
theorem bookmarkFlow_missing_bookmark_id (cache : Option (List BookmarkItem))
    (paperId : JsId) (notes : Option String) (server : ServerOutcome)
    (b : BookmarkItem)
    (hpid : normalizePaperId paperId ≠ "")
    (hfind : (cache.getD []).find?
      (fun x => handleMatch x (normalizePaperId paperId)) = some b)
    (hid : optStrTruthy b.id = false) :
    bookmarkFlow true cache paperId notes server =
      { optimisticCache := cache, finalCache := cache, staleKeys := [],
        notices := [Notice.bookmarkIdNotFound], netCalls := [] } := by
  have hb : handleBookmark true (cache.getD []) paperId notes
      = ([Notice.bookmarkIdNotFound], none) := by
    unfold handleBookmark
    simp [hpid, hfind, hid]
  simp [bookmarkFlow, hb]

/-- C9 witness: cached row `{paper_id:"5"}` with no bookmark id,
`remove("5")` attempted. -/
theorem bookmarkFlow_missing_bookmark_id_applied :
    bookmarkFlow true (some [bNoId5]) (JsId.str "5") none ServerOutcome.ok =
      { optimisticCache := some [bNoId5], finalCache := some [bNoId5],
        staleKeys := [], notices := [Notice.bookmarkIdNotFound],
        netCalls := [] } :=
  bookmarkFlow_missing_bookmark_id (some [bNoId5]) (JsId.str "5") none
    ServerOutcome.ok bNoId5 (by decide) (by decide) (by decide)

end FrontEnd
